import Mathlib

/-!
Verification of `src/exec-capture-output/src/app.rs` (repository
`cspotcode/rust-experiments`): a CLI tool that forks a child under a pty
and captures the output the child writes to the pty master.

The embedding models `pub async fn main(opts: CliOpts) -> Result<()>`
(app.rs lines 62-98) as a pure function from an environment (the behavior
of the OS calls the function makes) and the parsed options to an outcome
together with a trace of externally visible effects.  Machine behavior of
the Rust standard library that the source relies on (Vec indexing panics,
`Option::unwrap`, `Result::expect`, `Read::read_to_string` UTF-8
validation, `str::trim`) is translated faithfully from its documented
semantics.
-/

namespace ExecCaptureOutput

/-- Parsed command-line options (app.rs `CliOpts`, lines 49-59): the
`--output-file` path (`outpath`, line 55) and the positional `command`
argument list (`command_args`, line 58). -/
structure CliOpts where
  outpath : String
  command_args : List String

/-- Result of the child path running `command.status()` (app.rs line 93):
the spawn itself can fail (`launchFailure`, making `status()` return
`Err`), or the spawned sub-process terminates with an exit code
(`exited`, `ExitStatus::code()` returns `Some`), or it is terminated by a
signal (`signaled`, `ExitStatus::code()` returns `None`). -/
inductive SpawnResult where
  | launchFailure
  | exited (code : Int)
  | signaled
deriving DecidableEq

/-- The behavior of the operating-system facilities `main` uses, fixed for
one run: `Path::new(p).exists()` (line 68), the `which` lookup (line 73),
whether `Fork::from_ptmx()` succeeds (line 77), which role this process
has after the fork (line 80), what `master.read_to_string` obtains from
the pty master (line 83: either an I/O error with its message, or the raw
bytes drained until end-of-stream), and what `Command::status` does in
the child (line 93). -/
structure Env where
  pathExists : String → Bool
  which : String → Option String
  forkOk : Bool
  isParent : Bool
  masterRead : Except String (List Nat)
  spawn : String → List String → SpawnResult

/-- Externally visible effects of one run of `main`, in order.
`ptyFork` records the successful pty allocation plus fork (line 77);
`spawned` records the child path launching the target as a spawned
sub-process, with the program and the argument list passed to it
(lines 89-93); `printedLine` records the parent `println!` (line 84), as
the code points of the printed line; `fileWrite` would record writing a
file (the source contains no file write, so no run emits it);
`execReplaced` would record the child replacing its own process image via
exec (the source child path uses `Command::status`, not exec, so no run
emits it); `reaped` would record the parent waiting on / reaping the fork
child (the source contains no wait on the fork handle, so no run emits
it). -/
inductive Effect where
  | ptyFork
  | spawned (program : String) (args : List String)
  | printedLine (line : List Nat)
  | fileWrite (path : String) (contents : List Nat)
  | execReplaced (program : String) (args : List String)
  | reaped
deriving DecidableEq

/-- How one run of `main` ends, from the point of view of the process
executing it: a Rust panic with its message (index out of bounds,
`unwrap`, `expect`, or the explicit `panic!` on line 85), the function
returning `Ok(())` (line 97, reached by the parent path; the payload is
the code points of the line printed on line 84), or
`std::process::exit(code)` (line 94, child path). -/
inductive Outcome where
  | panicked (msg : String)
  | returnedOk (stdoutLine : List Nat)
  | processExit (code : Int)
deriving DecidableEq

/-- Process exit status observed by the invoker of the process, given how
`main` ended.  Modelled from the documented Rust runtime behavior: a
panic terminates the process with exit code 101; `main` returning
`Ok(())` makes the process exit 0 (the argument-parsing boilerplate that
invokes `app::main`, `crate::helpers`, is outside src/ and follows the
standard `Result`-to-exit-code contract); `std::process::exit(code)`
exits with `code`. -/
def processExitCode : Outcome → Int
  | Outcome.panicked _ => 101
  | Outcome.returnedOk _ => 0
  | Outcome.processExit code => code

/-- Continuation-byte test for UTF-8 validation: `0x80 ≤ b ≤ 0xBF`. -/
def isCont (b : Nat) : Bool := 0x80 ≤ b && b ≤ 0xBF

/-- Admissible second byte of a three-byte UTF-8 sequence headed by `b1`
(Rust `core::str` validation: `0xE0` requires `A0..BF`, `0xED` requires
`80..9F` to exclude surrogates, otherwise a plain continuation byte). -/
def utf8ThreeByte2Ok (b1 b2 : Nat) : Bool :=
  if b1 = 0xE0 then 0xA0 ≤ b2 && b2 ≤ 0xBF
  else if b1 = 0xED then 0x80 ≤ b2 && b2 ≤ 0x9F
  else isCont b2

/-- Admissible second byte of a four-byte UTF-8 sequence headed by `b1`
(`0xF0` requires `90..BF`, `0xF4` requires `80..8F` to stay below
`U+110000`, otherwise a plain continuation byte). -/
def utf8FourByte2Ok (b1 b2 : Nat) : Bool :=
  if b1 = 0xF0 then 0x90 ≤ b2 && b2 ≤ 0xBF
  else if b1 = 0xF4 then 0x80 ≤ b2 && b2 ≤ 0x8F
  else isCont b2

/-- UTF-8 decoding of a byte sequence to its Unicode scalar values,
following the validation `Read::read_to_string` performs (Rust rejects
overlong encodings, surrogates, values above `U+10FFFF`, stray
continuation bytes, and truncated sequences).  Returns `none` exactly
when the bytes are not valid UTF-8. -/
def utf8Decode : List Nat → Option (List Nat)
  | [] => some []
  | b1 :: l =>
    if b1 ≤ 0x7F then
      match utf8Decode l with
      | some cps => some (b1 :: cps)
      | none => none
    else if 0xC2 ≤ b1 ∧ b1 ≤ 0xDF then
      match l with
      | b2 :: l2 =>
        if isCont b2 then
          match utf8Decode l2 with
          | some cps => some (((b1 - 0xC0) * 0x40 + (b2 - 0x80)) :: cps)
          | none => none
        else none
      | [] => none
    else if 0xE0 ≤ b1 ∧ b1 ≤ 0xEF then
      match l with
      | b2 :: b3 :: l3 =>
        if utf8ThreeByte2Ok b1 b2 && isCont b3 then
          match utf8Decode l3 with
          | some cps =>
              some (((b1 - 0xE0) * 0x1000 + (b2 - 0x80) * 0x40 + (b3 - 0x80)) :: cps)
          | none => none
        else none
      | _ => none
    else if 0xF0 ≤ b1 ∧ b1 ≤ 0xF4 then
      match l with
      | b2 :: b3 :: b4 :: l4 =>
        if utf8FourByte2Ok b1 b2 && isCont b3 && isCont b4 then
          match utf8Decode l4 with
          | some cps =>
              some (((b1 - 0xF0) * 0x40000 + (b2 - 0x80) * 0x1000 +
                     (b3 - 0x80) * 0x40 + (b4 - 0x80)) :: cps)
          | none => none
        else none
      | _ => none
    else none

/-- Unicode code points with the White_Space property, the set
`char::is_whitespace` tests and hence the set `str::trim` strips. -/
def isRustWhitespace (c : Nat) : Bool :=
  c = 0x09 || c = 0x0A || c = 0x0B || c = 0x0C || c = 0x0D || c = 0x20 ||
  c = 0x85 || c = 0xA0 || c = 0x1680 || (0x2000 ≤ c && c ≤ 0x200A) ||
  c = 0x2028 || c = 0x2029 || c = 0x202F || c = 0x205F || c = 0x3000

/-- Rust `str::trim` on a sequence of code points: strip leading and
trailing whitespace (app.rs line 84 applies it to the captured output
before printing). -/
def rustTrim (s : List Nat) : List Nat :=
  ((s.dropWhile isRustWhitespace).reverse.dropWhile isRustWhitespace).reverse

/-- Code points of a Lean string literal, used to state what the parent
prints. -/
def strCodepoints (s : String) : List Nat := s.data.map Char.toNat

/-- Binary resolution, app.rs lines 68-74: if `command_args[0]` exists as
a path it is used directly, otherwise it is looked up with `which`;
`none` models the `which(...).unwrap()` panic when the lookup fails. -/
def resolveExecutable (env : Env) (c0 : String) : Option String :=
  if env.pathExists c0 then some c0 else env.which c0

/-- One run of `main` (app.rs lines 62-98) in the process whose role
`env.isParent` gives, returning how the run ends and the effects it
performs, in order.

Line 68 indexes `opts.command_args[0]`: on an empty list this panics with
the Rust out-of-bounds message before anything else happens.  Lines
68-74 resolve the binary (`which(...).unwrap()` panics when the lookup
fails).  Line 77 allocates the pty and forks (`unwrap` panics on
failure).  Parent path, lines 80-86: drain the master with
`read_to_string` (an I/O error or invalid UTF-8 makes it return `Err`,
and the `Err` arm executes `panic!("read error: ...")`); on success print
`child tty is: ` followed by the trimmed capture and fall through to
`Ok(())` (line 97).  Child path, lines 88-95: build a `Command` from the
resolved path, add `command_args.iter().skip(1)` as arguments, run it
with `status()` (a spawned sub-process that is waited on;
`.expect("could not execute command")` panics when the launch fails),
then `std::process::exit` with `status.code().expect("could not get exit
code")` (panics when the sub-process was terminated by a signal). -/
def runMain (env : Env) (opts : CliOpts) : Outcome × List Effect :=
  match opts.command_args with
  | [] =>
    (Outcome.panicked "index out of bounds: the len is 0 but the index is 0", [])
  | c0 :: rest =>
    match resolveExecutable env c0 with
    | none => (Outcome.panicked "called Option::unwrap on a None value", [])
    | some executablePath =>
      if env.forkOk then
        if env.isParent then
          match env.masterRead with
          | Except.error e =>
            (Outcome.panicked ("read error: " ++ e), [Effect.ptyFork])
          | Except.ok bytes =>
            match utf8Decode bytes with
            | none =>
              (Outcome.panicked "read error: stream did not contain valid UTF-8",
               [Effect.ptyFork])
            | some cps =>
              let line := strCodepoints "child tty is: " ++ rustTrim cps
              (Outcome.returnedOk line, [Effect.ptyFork, Effect.printedLine line])
        else
          let childArgs := (c0 :: rest).drop 1
          match env.spawn executablePath childArgs with
          | SpawnResult.launchFailure =>
            (Outcome.panicked "could not execute command",
             [Effect.ptyFork, Effect.spawned executablePath childArgs])
          | SpawnResult.exited code =>
            (Outcome.processExit code,
             [Effect.ptyFork, Effect.spawned executablePath childArgs])
          | SpawnResult.signaled =>
            (Outcome.panicked "could not get exit code",
             [Effect.ptyFork, Effect.spawned executablePath childArgs])
      else
        (Outcome.panicked "called Result::unwrap on an Err value", [])

/-- The file writes performed by a run, extracted from its effect trace
as `(path, contents)` pairs. -/
def filesWritten (es : List Effect) : List (String × List Nat) :=
  es.filterMap fun e =>
    match e with
    | Effect.fileWrite p b => some (p, b)
    | _ => none

/-- Replay the file writes of an effect trace onto a file-system state
(a map from path to the file contents, `none` when the file does not
exist); a `fileWrite` truncates and replaces the contents at its path. -/
def applyEffects (fs : String → Option (List Nat)) : List Effect → (String → Option (List Nat))
  | [] => fs
  | Effect.fileWrite p b :: rest =>
    applyEffects (fun q => if q = p then some b else fs q) rest
  | _ :: rest => applyEffects fs rest

end ExecCaptureOutput

namespace ExecCaptureOutput

/-! Concrete fixtures used by counterexamples and witnesses. -/

/-- Options of a sample invocation: `--output-file /tmp/out.txt prog`. -/
def optsSample : CliOpts := { outpath := "/tmp/out.txt", command_args := ["prog"] }

/-- Options of an invocation with extra arguments:
`--output-file /tmp/out.txt /bin/echo a b`. -/
def optsEcho : CliOpts :=
  { outpath := "/tmp/out.txt", command_args := ["/bin/echo", "a", "b"] }

/-- Options of an invocation with an empty command list. -/
def optsEmpty : CliOpts := { outpath := "/tmp/out.txt", command_args := [] }

/-- Parent-role environment: the binary resolves, the fork succeeds, and
the pty master yields the bytes `104 105 10` (the child printed `hi`
followed by a newline) before end-of-stream. -/
def envParentHi : Env :=
  { pathExists := fun _ => true
    which := fun _ => none
    forkOk := true
    isParent := true
    masterRead := Except.ok [104, 105, 10]
    spawn := fun _ _ => SpawnResult.exited 0 }

/-- Parent-role environment in a session whose child command terminates
normally with exit code 3. -/
def envParentChild3 : Env := { envParentHi with spawn := fun _ _ => SpawnResult.exited 3 }

/-- Parent-role environment where reading the pty master fails with an
I/O error that is not end-of-stream. -/
def envParentReadErr : Env :=
  { envParentHi with masterRead := Except.error "Input output error" }

/-- Parent-role environment where the child output contains the byte
`0xFF`, which is not valid UTF-8. -/
def envParentBadUtf8 : Env := { envParentHi with masterRead := Except.ok [0xFF] }

/-- Child-role environment: the binary resolves, the fork succeeds, and
the spawned sub-process exits with code 3. -/
def envChildExit3 : Env :=
  { pathExists := fun _ => true
    which := fun _ => none
    forkOk := true
    isParent := false
    masterRead := Except.ok []
    spawn := fun _ _ => SpawnResult.exited 3 }

/-- Child-role environment whose spawned sub-process is terminated by a
signal, so `ExitStatus::code()` is `None`. -/
def envChildSignaled : Env := { envChildExit3 with spawn := fun _ _ => SpawnResult.signaled }

/-- Child-role environment where launching the target fails (not found,
not executable, permission denied), so `Command::status` returns `Err`. -/
def envChildLaunchFail : Env :=
  { envChildExit3 with spawn := fun _ _ => SpawnResult.launchFailure }

/-- Child-role environment whose spawned sub-process exits with code 0,
used with `optsEcho`. -/
def envChildEcho : Env := { envChildExit3 with spawn := fun _ _ => SpawnResult.exited 0 }

/-! Claim theorems. -/

/-- C1: the claim says `run` writes the Captured Output to `output_path`
as the raw captured bytes.  Evaluating the parent path on a session whose
child wrote the bytes `104 105 10` shows the code writes no file at all
(the effect trace contains no `fileWrite`, so the file at `outpath` stays
nonexistent) and instead prints the capture to stdout, trimmed and behind
the added text `child tty is: ` — contradicting the program's own about
text, which promises capture to a file. -/
theorem C1_output_file_never_written :
    runMain envParentHi optsSample =
      (Outcome.returnedOk (strCodepoints "child tty is: hi"),
       [Effect.ptyFork, Effect.printedLine (strCodepoints "child tty is: hi")])
    ∧ filesWritten (runMain envParentHi optsSample).2 = []
    ∧ applyEffects (fun _ => none) (runMain envParentHi optsSample).2 optsSample.outpath
        = none := by
  decide

/-- C2 counterexample: in a session whose child command terminates
normally with exit code 3, the runner's own process (the parent, the
process the invoker started) returns `Ok(())` from `main` and exits 0,
not 3. -/
theorem C2_counterexample :
    (runMain envParentChild3 optsSample).1
      = Outcome.returnedOk (strCodepoints "child tty is: hi")
    ∧ processExitCode (runMain envParentChild3 optsSample).1 = 0
    ∧ processExitCode (runMain envParentChild3 optsSample).1 ≠ 3 := by
  decide

/-- C2 amended: the fork-child path does exit with the executed command's
exit code `E`, but the parent path never observes or propagates it — on a
successful capture the parent returns `Ok(())` and the runner's own
process exits 0 regardless of `E`. -/
theorem C2_exit_code_not_propagated (env : Env) (opts : CliOpts) (c0 p : String)
    (rest : List String) (code : Int)
    (hargs : opts.command_args = c0 :: rest)
    (hres : resolveExecutable env c0 = some p)
    (hfork : env.forkOk = true) :
    (env.isParent = false → env.spawn p rest = SpawnResult.exited code →
      (runMain env opts).1 = Outcome.processExit code)
    ∧ (∀ bytes cps, env.isParent = true → env.masterRead = Except.ok bytes →
        utf8Decode bytes = some cps →
        processExitCode (runMain env opts).1 = 0) := by
  constructor
  · intro hchild hspawn
    simp [runMain, hargs, hres, hfork, hchild, hspawn]
  · intro bytes cps hpar hread hdec
    simp [runMain, hargs, hres, hfork, hpar, hread, hdec, processExitCode]

/-- Witness for C2 amended at a concrete parent-role run whose child
command exits with code 3. -/
theorem C2_exit_code_not_propagated_witness :
    processExitCode (runMain envParentChild3 optsSample).1 = 0 :=
  (C2_exit_code_not_propagated envParentChild3 optsSample "prog" "prog" [] 3
      rfl rfl rfl).2 [104, 105, 10] [104, 105, 10] rfl rfl rfl

/-- C3 counterexample: when the spawned command is terminated by a signal
(no exit code exists), the child path does not exit with a documented
sentinel status — it panics in `expect` and dies with the generic Rust
panic exit status 101. -/
theorem C3_counterexample :
    (runMain envChildSignaled optsSample).1 = Outcome.panicked "could not get exit code"
    ∧ processExitCode (runMain envChildSignaled optsSample).1 = 101 := by
  decide

/-- C3 amended: when the exit code cannot be determined (signal
termination), the child path panics via
`.expect("could not get exit code")` and the process dies with Rust's
generic panic exit status 101 — a deterministic outcome, but a panic, not
a documented sentinel mapping. -/
theorem C3_signal_causes_expect_panic (env : Env) (opts : CliOpts) (c0 p : String)
    (rest : List String)
    (hargs : opts.command_args = c0 :: rest)
    (hres : resolveExecutable env c0 = some p)
    (hfork : env.forkOk = true)
    (hchild : env.isParent = false)
    (hsig : env.spawn p rest = SpawnResult.signaled) :
    (runMain env opts).1 = Outcome.panicked "could not get exit code"
    ∧ processExitCode (runMain env opts).1 = 101 := by
  have h : (runMain env opts).1 = Outcome.panicked "could not get exit code" := by
    simp [runMain, hargs, hres, hfork, hchild, hsig]
  exact ⟨h, by rw [h]; rfl⟩

/-- Witness for C3 amended at a concrete child-role run whose spawned
command is killed by a signal. -/
theorem C3_signal_causes_expect_panic_witness :
    (runMain envChildSignaled optsSample).1 = Outcome.panicked "could not get exit code"
    ∧ processExitCode (runMain envChildSignaled optsSample).1 = 101 :=
  C3_signal_causes_expect_panic envChildSignaled optsSample "prog" "prog" []
    rfl rfl rfl rfl rfl

/-- C4 counterexample: a non-end-of-stream read error on the pty master
makes the parent path panic (an internal crash, not a surfaced error
value), and the effect trace contains no reap of the child — the claim's
reap-before-propagating requirement fails. -/
theorem C4_counterexample :
    (runMain envParentReadErr optsSample).1
      = Outcome.panicked "read error: Input output error"
    ∧ Effect.reaped ∉ (runMain envParentReadErr optsSample).2 := by
  decide

/-- C4 amended: a read error other than end-of-stream makes the parent
path panic with `read error: ` and the underlying message, and the runner
never attempts to reap the child (the source contains no wait on the fork
handle on any path). -/
theorem C4_read_error_panics_without_reaping (env : Env) (opts : CliOpts)
    (c0 p e : String) (rest : List String)
    (hargs : opts.command_args = c0 :: rest)
    (hres : resolveExecutable env c0 = some p)
    (hfork : env.forkOk = true)
    (hpar : env.isParent = true)
    (herr : env.masterRead = Except.error e) :
    (runMain env opts).1 = Outcome.panicked ("read error: " ++ e)
    ∧ Effect.reaped ∉ (runMain env opts).2 := by
  have h : runMain env opts
      = (Outcome.panicked ("read error: " ++ e), [Effect.ptyFork]) := by
    simp [runMain, hargs, hres, hfork, hpar, herr]
  rw [h]
  refine ⟨rfl, ?_⟩
  simp

/-- Witness for C4 amended at a concrete parent-role run with a failing
read. -/
theorem C4_read_error_panics_without_reaping_witness :
    (runMain envParentReadErr optsSample).1
      = Outcome.panicked "read error: Input output error"
    ∧ Effect.reaped ∉ (runMain envParentReadErr optsSample).2 ∧ True :=
  let h := C4_read_error_panics_without_reaping envParentReadErr optsSample
    "prog" "prog" "Input output error" [] rfl rfl rfl rfl rfl
  ⟨h.1, h.2, trivial⟩

/-- C5 counterexample: with a spawned command that exits 3, the fork
child runs the target as an additional spawned sub-process (the trace
contains `spawned`, never `execReplaced`), waits for it, and then itself
calls `process::exit 3` — so the fork child survives the target's
execution, which exec replacement would make impossible. -/
theorem C5_counterexample :
    (runMain envChildExit3 optsSample).1 = Outcome.processExit 3
    ∧ Effect.spawned "prog" [] ∈ (runMain envChildExit3 optsSample).2
    ∧ Effect.execReplaced "prog" [] ∉ (runMain envChildExit3 optsSample).2 := by
  decide

/-- C5 amended: the child path's standard streams are bound to the pty
slave by the pty fork, but the target runs as an additional sub-process
spawned with `Command::status` that the fork child waits on, after which
the fork child exits with the sub-process's code; the child path never
replaces its own process image via exec. -/
theorem C5_child_spawns_subprocess_not_exec (env : Env) (opts : CliOpts)
    (c0 p : String) (rest : List String) (code : Int)
    (hargs : opts.command_args = c0 :: rest)
    (hres : resolveExecutable env c0 = some p)
    (hfork : env.forkOk = true)
    (hchild : env.isParent = false)
    (hspawn : env.spawn p rest = SpawnResult.exited code) :
    (runMain env opts).1 = Outcome.processExit code
    ∧ Effect.spawned p rest ∈ (runMain env opts).2
    ∧ ∀ q args, Effect.execReplaced q args ∉ (runMain env opts).2 := by
  have h : runMain env opts
      = (Outcome.processExit code, [Effect.ptyFork, Effect.spawned p rest]) := by
    simp [runMain, hargs, hres, hfork, hchild, hspawn]
  rw [h]
  refine ⟨rfl, by simp, ?_⟩
  intro q args
  simp

/-- Witness for C5 amended at a concrete child-role run whose spawned
command exits 3. -/
theorem C5_child_spawns_subprocess_not_exec_witness :
    (runMain envChildExit3 optsSample).1 = Outcome.processExit 3
    ∧ Effect.spawned "prog" [] ∈ (runMain envChildExit3 optsSample).2 :=
  let h := C5_child_spawns_subprocess_not_exec envChildExit3 optsSample
    "prog" "prog" [] 3 rfl rfl rfl rfl rfl
  ⟨h.1, h.2.1⟩

/-- C6: the first element of the command list is used only as the program
(after path resolution), is excluded from the arguments passed to the
child, and the remaining elements are passed in their original order:
the child's spawn effect records exactly the resolved program and the
tail of the command list. -/
theorem C6_first_arg_is_program_rest_are_args (env : Env) (opts : CliOpts)
    (c0 p : String) (rest : List String)
    (hargs : opts.command_args = c0 :: rest)
    (hres : resolveExecutable env c0 = some p)
    (hfork : env.forkOk = true)
    (hchild : env.isParent = false) :
    (runMain env opts).2 = [Effect.ptyFork, Effect.spawned p rest] := by
  rcases hs : env.spawn p rest with _ | code | _ <;>
    simp [runMain, hargs, hres, hfork, hchild, hs]

/-- Witness for C6 at the invocation `/bin/echo a b`: the program is
`/bin/echo` and the child receives exactly `a b`, in order. -/
theorem C6_first_arg_is_program_rest_are_args_witness :
    (runMain envChildEcho optsEcho).2
      = [Effect.ptyFork, Effect.spawned "/bin/echo" ["a", "b"]] :=
  C6_first_arg_is_program_rest_are_args envChildEcho optsEcho
    "/bin/echo" "/bin/echo" ["a", "b"] rfl rfl rfl rfl

/-- C7: when launching the target fails in the child path, the child
panics in `.expect("could not execute command")`, dying immediately with
the nonzero Rust panic status 101, and never reaches the shared `Ok(())`
return past the fork point. -/
theorem C7_launch_failure_child_dies_nonzero (env : Env) (opts : CliOpts)
    (c0 p : String) (rest : List String)
    (hargs : opts.command_args = c0 :: rest)
    (hres : resolveExecutable env c0 = some p)
    (hfork : env.forkOk = true)
    (hchild : env.isParent = false)
    (hfail : env.spawn p rest = SpawnResult.launchFailure) :
    (runMain env opts).1 = Outcome.panicked "could not execute command"
    ∧ processExitCode (runMain env opts).1 ≠ 0
    ∧ ∀ line, (runMain env opts).1 ≠ Outcome.returnedOk line := by
  have h : (runMain env opts).1 = Outcome.panicked "could not execute command" := by
    simp [runMain, hargs, hres, hfork, hchild, hfail]
  rw [h]
  refine ⟨rfl, by decide, ?_⟩
  intro line
  simp

/-- Witness for C7 at a concrete child-role run whose target cannot be
launched. -/
theorem C7_launch_failure_child_dies_nonzero_witness :
    (runMain envChildLaunchFail optsSample).1
      = Outcome.panicked "could not execute command"
    ∧ processExitCode (runMain envChildLaunchFail optsSample).1 ≠ 0 :=
  let h := C7_launch_failure_child_dies_nonzero envChildLaunchFail optsSample
    "prog" "prog" [] rfl rfl rfl rfl rfl
  ⟨h.1, h.2.1⟩

/-- File-system state before the runs used for C8: the output path
already holds the single byte `120`. -/
def fsPre : String → Option (List Nat) :=
  fun p => if p = "/tmp/out.txt" then some [120] else none

/-- C8: the claim says the second of two identical runs truncates and
fully overwrites the output file left by the first.  Evaluating two
identical successful runs against a file system where the output path
already holds the byte `120` shows neither run performs any file write,
so after both runs the file still holds its pre-existing contents —
there is no first-run file to overwrite and no truncation ever happens
(the same unused-`outpath` defect as C1). -/
theorem C8_runs_never_touch_output_file :
    filesWritten (runMain envParentHi optsSample).2 = []
    ∧ applyEffects (applyEffects fsPre (runMain envParentHi optsSample).2)
        (runMain envParentHi optsSample).2 optsSample.outpath = some [120] := by
  decide

/-- C9: an empty command list makes the very first step of `main`, the
indexing `opts.command_args[0]` on line 68, panic with the Rust
out-of-bounds message; the effect trace is empty, so the panic happens
before any pty allocation or fork. -/
theorem C9_empty_command_args_panics_before_fork (env : Env) (opts : CliOpts)
    (h : opts.command_args = []) :
    runMain env opts =
      (Outcome.panicked "index out of bounds: the len is 0 but the index is 0", []) := by
  simp [runMain, h]

/-- Witness for C9 at a concrete invocation with no command argument. -/
theorem C9_empty_command_args_panics_before_fork_witness :
    runMain envParentHi optsEmpty =
      (Outcome.panicked "index out of bounds: the len is 0 but the index is 0", []) :=
  C9_empty_command_args_panics_before_fork envParentHi optsEmpty rfl

/-- C10: capture succeeds only for UTF-8 child output.  Whenever the pty
master yields bytes that decode as UTF-8, `read_to_string` succeeds and
the parent reaches its normal return, printing the trimmed capture; and
for the concrete non-UTF-8 output `0xFF` the read fails, the parent
panics in the `Err` arm, and the captured output is discarded (the trace
records neither a print nor a file write). -/
theorem C10_capture_requires_utf8 :
    (∀ (env : Env) (opts : CliOpts) (c0 p : String) (rest : List String)
       (bytes cps : List Nat),
       opts.command_args = c0 :: rest →
       resolveExecutable env c0 = some p →
       env.forkOk = true → env.isParent = true →
       env.masterRead = Except.ok bytes →
       utf8Decode bytes = some cps →
       (runMain env opts).1 =
         Outcome.returnedOk (strCodepoints "child tty is: " ++ rustTrim cps))
    ∧ utf8Decode [0xFF] = none
    ∧ runMain envParentBadUtf8 optsSample =
        (Outcome.panicked "read error: stream did not contain valid UTF-8",
         [Effect.ptyFork]) := by
  refine ⟨?_, by decide, by decide⟩
  intro env opts c0 p rest bytes cps hargs hres hfork hpar hread hdec
  simp [runMain, hargs, hres, hfork, hpar, hread, hdec]

/-- Witness for C10 at a concrete parent-role run whose child output is
the valid UTF-8 byte sequence `104 105 10`. -/
theorem C10_capture_requires_utf8_witness :
    (runMain envParentHi optsSample).1 =
      Outcome.returnedOk (strCodepoints "child tty is: " ++ rustTrim [104, 105, 10]) :=
  C10_capture_requires_utf8.1 envParentHi optsSample "prog" "prog" []
    [104, 105, 10] [104, 105, 10] rfl rfl rfl rfl rfl rfl

end ExecCaptureOutput
